import Mathlib

/-!
Verification of the miso renderer (src/renderer/renderer.c, src/renderer/ui.c,
src/engine/src/miso_engine.c, src/renderer/nuklear_sdl3_gpu.h).

The renderer is embedded shallowly: the mutable module statics of renderer.c
(`cmd_buffer`, `swapchain_texture`, `render_pass`, the pipelines and the
sampler) become the fields of `RState`; every renderer call becomes a pure
function from `RState` (plus its arguments) to the updated `RState` paired
with the list of device operations (`GpuOp`) the call issues through the
SDL_GPU API, in source order.  Handles (textures, pipelines) are abstracted
to `Nat`; floating-point payloads (vertex coordinates, colors, matrices) are
not interpreted - only the byte sizes and offsets that the code computes from
the element counts are kept, since no property below depends on the numeric
contents of a payload.  `int` counts are embedded as `Nat` (the engine layer
miso_render.c rejects non-positive counts before they reach the renderer).
-/

/-- One device operation issued through the SDL_GPU API.  Constructors keep
the byte sizes and destination offsets the C code computes; payload contents
and handle identities that no claim depends on are dropped. -/
inductive GpuOp where
  | acquireCommandBuffer
  | acquireSwapchainTexture
  | submitCommandBuffer
  | beginRenderPass (hasDepth : Bool) (clearColor : Bool)
  | endRenderPass
  | beginCopyPass
  | endCopyPass
  | createTransferBuffer (size : Nat)
  | mapTransferBuffer
  | unmapTransferBuffer
  | createBuffer (size : Nat)
  | uploadToBuffer (size : Nat) (dstOffset : Nat)
  | releaseTransferBuffer
  | releaseBuffer
  | bindGraphicsPipeline (p : Nat)
  | bindVertexBuffers
  | bindIndexBuffer
  | bindVertexStorageBuffers
  | bindFragmentSamplers (texture : Nat)
  | pushVertexUniformData
  | pushFragmentUniformData
  | drawPrimitives (numVertices numInstances : Nat)
  | drawIndexedPrimitives (numIndices firstIndex : Nat)
deriving DecidableEq

/-- sizeof(SpriteInstance): 12 floats (renderer.h), 48 bytes. -/
def spriteInstanceSize : Nat := 48

/-- sizeof(SDL_Vertex): position float2 + SDL_FColor + tex_coord float2, 32 bytes. -/
def sdlVertexSize : Nat := 32

/-- Renderer_DrawLine uploads 6 floats (two xyz endpoints), 24 bytes. -/
def lineVertexBytes : Nat := 24

/-- UI text vertex stride: interleaved x, y, u, v, 16 bytes (ui.c). -/
def textVertexStride : Nat := 16

/-- sizeof(int) for the 32-bit text index buffers. -/
def textIndexSize : Nat := 4

/-- The mutable module statics of renderer.c that the per-frame calls read and
write.  `Option` mirrors the null checks in the source; pipeline and sampler
handles are set once by Renderer_Init and never written by the per-frame code,
so they are plain `Option Nat` fields here. -/
structure RState where
  cmdBuffer : Option Unit
  swapchain : Option Nat
  renderPass : Option Unit
  pipeline : Option Nat
  linePipeline : Option Nat
  geometryPipeline : Option Nat
  textPipeline : Option Nat
  sampler : Option Nat
deriving DecidableEq

/-- Module state after a successful Renderer_Init: all pipelines and the
sampler created, no frame open. -/
def initState : RState :=
  { cmdBuffer := none
    swapchain := none
    renderPass := none
    pipeline := some 1
    linePipeline := some 2
    geometryPipeline := some 3
    textPipeline := some 4
    sampler := some 5 }

/-- renderer.c Renderer_BeginFrame.  `cmdOk` is whether
SDL_AcquireGPUCommandBuffer succeeds, `acqOk` whether
SDL_AcquireGPUSwapchainTexture returns true, and `tex` the swapchain texture
it yields (none when the window is minimized).  On either acquisition failure
the source submits the (empty) command buffer and nulls `cmd_buffer` without
beginning a render pass; on success it begins the clearing render pass with
the depth target. -/
def Renderer_BeginFrame (s : RState) (cmdOk acqOk : Bool) (tex : Option Nat) :
    RState × List GpuOp :=
  if !cmdOk then
    ({ s with cmdBuffer := none }, [.acquireCommandBuffer])
  else if !acqOk then
    ({ s with cmdBuffer := none },
     [.acquireCommandBuffer, .acquireSwapchainTexture, .submitCommandBuffer])
  else
    match tex with
    | none =>
        ({ s with cmdBuffer := none, swapchain := none },
         [.acquireCommandBuffer, .acquireSwapchainTexture, .submitCommandBuffer])
    | some t =>
        ({ s with cmdBuffer := some (), swapchain := some t, renderPass := some () },
         [.acquireCommandBuffer, .acquireSwapchainTexture, .beginRenderPass true true])

/-- renderer.c Renderer_EndFrame: end the render pass if one is open, then
submit the command buffer if one is open, nulling both statics. -/
def Renderer_EndFrame (s : RState) : RState × List GpuOp :=
  let p1 : RState × List GpuOp :=
    if s.renderPass.isSome then ({ s with renderPass := none }, [.endRenderPass])
    else (s, [])
  let p2 : RState × List GpuOp :=
    if p1.1.cmdBuffer.isSome then
      ({ p1.1 with cmdBuffer := none }, [.submitCommandBuffer])
    else (p1.1, [])
  (p2.1, p1.2 ++ p2.2)

/-- renderer.c Renderer_DrawSprites.  Early-outs (count == 0, null render
pass / pipeline / texture / sampler) do nothing; otherwise the call uploads
the instance payload through a fresh transfer buffer, breaks the render pass
for a copy pass into a fresh storage buffer, resumes the pass, binds and
issues one instanced draw - all inside this call, in source order. -/
def Renderer_DrawSprites (s : RState) (texture : Option Nat) (count : Nat) :
    RState × List GpuOp :=
  if count = 0 then (s, [])
  else if s.renderPass.isNone then (s, [])
  else if s.pipeline.isNone then (s, [])
  else if texture.isNone then (s, [])
  else if s.sampler.isNone then (s, [])
  else
    let size := spriteInstanceSize * count
    ({ s with renderPass := some () },
     [.createTransferBuffer size, .mapTransferBuffer, .unmapTransferBuffer,
      .endRenderPass,
      .createBuffer size,
      .beginCopyPass, .uploadToBuffer size 0, .endCopyPass,
      .releaseTransferBuffer,
      .beginRenderPass true false,
      .bindGraphicsPipeline (s.pipeline.getD 0),
      .bindFragmentSamplers (texture.getD 0),
      .bindVertexStorageBuffers,
      .pushVertexUniformData,
      .drawPrimitives 6 count,
      .releaseBuffer])

/-- renderer.c Renderer_DrawLine.  The six float coordinates and the color
only fill the 24-byte payload and are not interpreted here.  The call breaks
the render pass, uploads through fresh transfer/vertex buffers, resumes the
pass and draws one 2-vertex line. -/
def Renderer_DrawLine (s : RState) : RState × List GpuOp :=
  if s.renderPass.isNone || s.linePipeline.isNone then (s, [])
  else
    ({ s with renderPass := some () },
     [.endRenderPass,
      .createTransferBuffer lineVertexBytes, .mapTransferBuffer, .unmapTransferBuffer,
      .createBuffer lineVertexBytes,
      .beginCopyPass, .uploadToBuffer lineVertexBytes 0, .endCopyPass,
      .releaseTransferBuffer,
      .beginRenderPass true false,
      .bindGraphicsPipeline (s.linePipeline.getD 0),
      .bindVertexBuffers,
      .pushVertexUniformData,
      .pushFragmentUniformData,
      .drawPrimitives 2 1,
      .releaseBuffer])

/-- renderer.c Renderer_DrawGeometry: same break-copy-resume shape as
Renderer_DrawLine, for `count` SDL_Vertex entries. -/
def Renderer_DrawGeometry (s : RState) (count : Nat) : RState × List GpuOp :=
  if s.renderPass.isNone || s.geometryPipeline.isNone || count = 0 then (s, [])
  else
    let size := sdlVertexSize * count
    ({ s with renderPass := some () },
     [.endRenderPass,
      .createTransferBuffer size, .mapTransferBuffer, .unmapTransferBuffer,
      .createBuffer size,
      .beginCopyPass, .uploadToBuffer size 0, .endCopyPass,
      .releaseTransferBuffer,
      .beginRenderPass true false,
      .bindGraphicsPipeline (s.geometryPipeline.getD 0),
      .bindVertexBuffers,
      .pushVertexUniformData,
      .drawPrimitives count 1,
      .releaseBuffer])

/-- renderer.c Renderer_FlushUIGeometry: guarded on the swapchain texture, the
command buffer, the geometry pipeline and the count; ends the current pass if
open, uploads, runs its own pass with one draw, then begins a fresh pass with
the depth target for subsequent drawing. -/
def Renderer_FlushUIGeometry (s : RState) (count : Nat) : RState × List GpuOp :=
  if s.swapchain.isNone || s.cmdBuffer.isNone || s.geometryPipeline.isNone ||
     count = 0 then (s, [])
  else
    let size := sdlVertexSize * count
    ({ s with renderPass := some () },
     (if s.renderPass.isSome then [GpuOp.endRenderPass] else []) ++
     [.createTransferBuffer size, .mapTransferBuffer, .unmapTransferBuffer,
      .createBuffer size,
      .beginCopyPass, .uploadToBuffer size 0, .endCopyPass,
      .releaseTransferBuffer,
      .beginRenderPass true false,
      .bindGraphicsPipeline (s.geometryPipeline.getD 0),
      .bindVertexBuffers,
      .pushVertexUniformData,
      .drawPrimitives count 1,
      .endRenderPass,
      .releaseBuffer,
      .beginRenderPass true false])

/-- renderer.h UITextAtlasInfo: one contiguous index span of a text batch
referencing one glyph-atlas texture. -/
structure UITextAtlasInfo where
  atlas : Nat
  start_index : Nat
  index_count : Nat
deriving DecidableEq

/-- The per-atlas-range loop body of Renderer_FlushUIText: ranges with
index_count == 0 are skipped; every other range binds its atlas texture and
issues one indexed draw. -/
def flushUITextRangeOps (r : UITextAtlasInfo) : List GpuOp :=
  if r.index_count = 0 then []
  else [.bindFragmentSamplers r.atlas, .drawIndexedPrimitives r.index_count r.start_index]

/-- renderer.c Renderer_FlushUIText: guarded on the swapchain texture, the
command buffer, the text pipeline and the vertex count; ends the current pass
if open, uploads vertices and indices through one transfer buffer into fresh
vertex/index buffers, runs the screen-space pass (no depth target) binding the
vertex and index buffers once and drawing once per non-empty atlas range, then
begins a fresh pass with the depth target. -/
def Renderer_FlushUIText (s : RState) (vertex_count index_count : Nat)
    (atlases : List UITextAtlasInfo) : RState × List GpuOp :=
  if s.swapchain.isNone || s.cmdBuffer.isNone || s.textPipeline.isNone ||
     vertex_count = 0 then (s, [])
  else
    let vert_size := textVertexStride * vertex_count
    let idx_size := textIndexSize * index_count
    ({ s with renderPass := some () },
     (if s.renderPass.isSome then [GpuOp.endRenderPass] else []) ++
     [.createTransferBuffer (vert_size + idx_size), .mapTransferBuffer, .unmapTransferBuffer,
      .createBuffer vert_size,
      .createBuffer idx_size,
      .beginCopyPass, .uploadToBuffer vert_size 0, .uploadToBuffer idx_size 0, .endCopyPass,
      .releaseTransferBuffer,
      .beginRenderPass false false,
      .bindGraphicsPipeline (s.textPipeline.getD 0),
      .bindVertexBuffers,
      .bindIndexBuffer,
      .pushVertexUniformData,
      .pushFragmentUniformData] ++
     (atlases.map flushUITextRangeOps).flatten ++
     [.endRenderPass,
      .releaseBuffer,
      .releaseBuffer,
      .beginRenderPass true false])

/-! ## miso_engine.c: the frame-timing layer

`miso_begin_frame` never talks to the renderer or the presentation surface:
it only advances the fixed-step clock.  The performance-counter arithmetic is
embedded over `Nat` ticks (the source's double-precision seconds are a fixed
rescaling of the same counter values, which no claim interprets). -/

/-- The MisoEngine fields miso_begin_frame reads and writes. -/
structure MisoEngine where
  running : Bool
  lastCounter : Nat
  simAccumulator : Nat
deriving DecidableEq

/-- miso_engine.c miso_begin_frame: returns false iff the engine pointer is
null or the engine is not running; otherwise advances the clock accumulator
and returns true.  It never queries the renderer or the surface. -/
def miso_begin_frame (e : Option MisoEngine) (now : Nat) : Option MisoEngine × Bool :=
  match e with
  | none => (none, false)
  | some eng =>
      if !eng.running then (some eng, false)
      else
        (some { eng with
                  lastCounter := now
                  simAccumulator := eng.simAccumulator + (now - eng.lastCounter) },
         true)

/-! ## ui.c: the CPU-side UI batch -/

/-- ui.c UI_GEOMETRY_INITIAL_CAPACITY. -/
def UI_GEOMETRY_INITIAL_CAPACITY : Nat := 4096

/-- ui.c UI_TEXT_INITIAL_CAPACITY. -/
def UI_TEXT_INITIAL_CAPACITY : Nat := 2048

/-- ui.c UI_TEXT_MAX_ATLASES. -/
def UI_TEXT_MAX_ATLASES : Nat := 8

/-- The `while (new_capacity < needed) new_capacity *= 2;` loop of ui.c.
Both call sites start the loop from a positive capacity, so the `cap = 0`
guard (needed only to convince Lean of termination) is never taken. -/
def growCap (cap needed : Nat) : Nat :=
  if h : cap = 0 then 0
  else if cap < needed then growCap (cap * 2) needed
  else cap
termination_by needed - cap
decreasing_by
  have h2 : cap + 1 ≤ cap * 2 := by omega
  omega

/-- ui.c GeometryBatch: the vertex payload itself is abstracted; `count` and
`capacity` are the fields the capacity logic reads. -/
structure GeometryBatch where
  count : Nat
  capacity : Nat
deriving DecidableEq

/-- ui.c geometry_ensure_capacity.  Returns the updated batch and whether the
backing storage was reallocated (SDL_realloc was called). -/
def geometry_ensure_capacity (g : GeometryBatch) (additional : Nat) :
    GeometryBatch × Bool :=
  let needed := g.count + additional
  if needed ≤ g.capacity then (g, false)
  else
    let start := if g.capacity = 0 then UI_GEOMETRY_INITIAL_CAPACITY else g.capacity * 2
    ({ g with capacity := growCap start needed }, true)

/-- ui.c TextAtlasRange. -/
structure TextAtlasRange where
  atlas : Nat
  start_vertex : Nat
  vertex_count : Nat
  start_index : Nat
  index_count : Nat
deriving DecidableEq

/-- ui.c TextBatch.  The fixed `atlases[UI_TEXT_MAX_ATLASES]` array plus
`atlas_count` is embedded as a list whose length the code keeps at most
UI_TEXT_MAX_ATLASES; vertex/index payloads are abstracted to their counts. -/
structure TextBatch where
  vertex_count : Nat
  index_count : Nat
  vertex_capacity : Nat
  index_capacity : Nat
  atlases : List TextAtlasRange
deriving DecidableEq

/-- The empty text batch (after UI_Init / a flush). -/
def emptyTextBatch : TextBatch :=
  { vertex_count := 0, index_count := 0
    vertex_capacity := UI_TEXT_INITIAL_CAPACITY
    index_capacity := UI_TEXT_INITIAL_CAPACITY
    atlases := [] }

/-- ui.c text_ensure_capacity: grows the two capacities by doubling when
needed; never drops anything. -/
def text_ensure_capacity (b : TextBatch) (add_verts add_indices : Nat) : TextBatch :=
  let b1 :=
    if b.vertex_count + add_verts ≤ b.vertex_capacity then b
    else
      let start := if b.vertex_capacity = 0 then UI_TEXT_INITIAL_CAPACITY
                   else b.vertex_capacity * 2
      { b with vertex_capacity := growCap start (b.vertex_count + add_verts) }
  if b1.index_count + add_indices ≤ b1.index_capacity then b1
  else
    let start := if b1.index_capacity = 0 then UI_TEXT_INITIAL_CAPACITY
                 else b1.index_capacity * 2
    { b1 with index_capacity := growCap start (b1.index_count + add_indices) }

/-- The linear scan of ui.c text_get_atlas_range over the existing ranges. -/
def text_find_atlas : List TextAtlasRange → Nat → Option Nat
  | [], _ => none
  | r :: rs, a => if r.atlas = a then some 0 else (text_find_atlas rs a).map (· + 1)

/-- ui.c text_get_atlas_range: reuse the existing range for this atlas if
any; otherwise, when the fixed array is full, log a warning and return none
(the caller skips the glyphs); otherwise append a fresh range starting at the
current vertex/index counts.  Returns the updated batch and the index of the
range, if one was obtained. -/
def text_get_atlas_range (b : TextBatch) (atlas : Nat) : TextBatch × Option Nat :=
  match text_find_atlas b.atlases atlas with
  | some i => (b, some i)
  | none =>
      if UI_TEXT_MAX_ATLASES ≤ b.atlases.length then (b, none)
      else
        ({ b with
             atlases := b.atlases ++
               [{ atlas := atlas
                  start_vertex := b.vertex_count
                  vertex_count := 0
                  start_index := b.index_count
                  index_count := 0 }] },
         some b.atlases.length)

/-- In-place update of one list entry (the C code mutates the range through
the pointer returned by text_get_atlas_range). -/
def modifyAt : List TextAtlasRange → Nat → (TextAtlasRange → TextAtlasRange) →
    List TextAtlasRange
  | [], _, _ => []
  | r :: rs, 0, f => f r :: rs
  | r :: rs, i + 1, f => r :: modifyAt rs i f

/-- One node of the TTF_GPUAtlasDrawSequence list that TTF_GetGPUTextDrawData
returns for a text object: the atlas texture it references and its vertex and
index counts (the xy/uv/index payloads are abstracted away). -/
structure AtlasDrawSeq where
  atlas_texture : Nat
  num_vertices : Nat
  num_indices : Nat
deriving DecidableEq

/-- The body of the `while (seq)` loop of ui.c UI_TextColored for one
sequence node: obtain (or create) the range for the node's atlas; if none is
available skip the node; otherwise grow capacities, append the node's
vertices and indices to the batch and extend the range's counts. -/
def ui_text_step (b : TextBatch) (seg : AtlasDrawSeq) : TextBatch :=
  match text_get_atlas_range b seg.atlas_texture with
  | (b1, none) => b1
  | (b1, some i) =>
      let b2 := text_ensure_capacity b1 seg.num_vertices seg.num_indices
      { b2 with
          vertex_count := b2.vertex_count + seg.num_vertices
          index_count := b2.index_count + seg.num_indices
          atlases := modifyAt b2.atlases i (fun r =>
            { r with
                vertex_count := r.vertex_count + seg.num_vertices
                index_count := r.index_count + seg.num_indices }) }

/-- ui.c UI_TextColored (the color argument is unused in the source): fold
the draw-sequence nodes of one text object into the batch. -/
def UI_TextColored (b : TextBatch) (segs : List AtlasDrawSeq) : TextBatch :=
  segs.foldl ui_text_step b

/-- ui.c UI_Flush: flush the geometry batch (if non-empty) and then the text
batch (if non-empty), resetting their counts; the text flush passes the
per-range atlas info to Renderer_FlushUIText.  Returns the renderer state,
the reset batches, and the device operations issued. -/
def UI_Flush (s : RState) (g : GeometryBatch) (b : TextBatch) :
    RState × GeometryBatch × TextBatch × List GpuOp :=
  let pg : RState × GeometryBatch × List GpuOp :=
    if 0 < g.count then
      let r := Renderer_FlushUIGeometry s g.count
      (r.1, { g with count := 0 }, r.2)
    else (s, g, [])
  let pt : RState × TextBatch × List GpuOp :=
    if 0 < b.vertex_count then
      let r := Renderer_FlushUIText pg.1 b.vertex_count b.index_count
        (b.atlases.map (fun a =>
          { atlas := a.atlas, start_index := a.start_index,
            index_count := a.index_count }))
      (r.1, { b with vertex_count := 0, index_count := 0, atlases := [] }, r.2)
    else (pg.1, b, [])
  (pt.1, pg.2.1, pt.2.1, pg.2.2 ++ pt.2.2)

/-! ## nuklear_sdl3_gpu.h: the only ring-slot stream in the repository

The debug-UI backend keeps persistent vertex/index stream buffers split into
NK_SDL_GPU_FRAMES_IN_FLIGHT fixed slots and advances `frame_slot` round-robin
once per rendered UI frame, inside nk_sdl_gpu_render (not in any BeginFrame). -/

/-- nuklear_sdl3_gpu.h NK_SDL_GPU_FRAMES_IN_FLIGHT. -/
def NK_SDL_GPU_FRAMES_IN_FLIGHT : Nat := 3

/-- The slot advance `frame_slot = (frame_slot + 1U) % NK_SDL_GPU_FRAMES_IN_FLIGHT`
performed by nk_sdl_gpu_render. -/
def nk_sdl_gpu_advance_slot (slot : Nat) : Nat :=
  (slot + 1) % NK_SDL_GPU_FRAMES_IN_FLIGHT

/-- The slot used by the n-th rendered UI frame, starting from the initial
`frame_slot = 0` set by nk_sdl_gpu_create_stream_buffers (the advance runs
before the slot is used). -/
def nk_frame_slot : Nat → Nat
  | 0 => nk_sdl_gpu_advance_slot 0
  | n + 1 => nk_sdl_gpu_advance_slot (nk_frame_slot n)

/-! ## Frame driver: one recorded frame of renderer.c calls -/

/-- One draw-submission call recorded between Renderer_BeginFrame and
Renderer_EndFrame. -/
inductive DrawCmd where
  | sprites (texture : Option Nat) (count : Nat)
  | line
  | geometry (count : Nat)
  | uiGeometry (count : Nat)
  | uiText (vertex_count index_count : Nat) (atlases : List UITextAtlasInfo)
deriving DecidableEq

/-- Dispatch one recorded call to its renderer.c function. -/
def runDraw (s : RState) : DrawCmd → RState × List GpuOp
  | .sprites tex n => Renderer_DrawSprites s tex n
  | .line => Renderer_DrawLine s
  | .geometry n => Renderer_DrawGeometry s n
  | .uiGeometry n => Renderer_FlushUIGeometry s n
  | .uiText vc ic atl => Renderer_FlushUIText s vc ic atl

/-- Run a list of recorded calls, concatenating their device operations. -/
def runDraws (s : RState) : List DrawCmd → RState × List GpuOp
  | [] => (s, [])
  | d :: ds =>
      let r := runDraw s d
      let rest := runDraws r.1 ds
      (rest.1, r.2 ++ rest.2)

/-- One whole frame from the post-Init state: a successful
Renderer_BeginFrame, the recorded draw calls, then Renderer_EndFrame. -/
def runFrame (ds : List DrawCmd) : RState × List GpuOp :=
  let b := Renderer_BeginFrame initState true true (some 100)
  let m := runDraws b.1 ds
  let e := Renderer_EndFrame m.1
  (e.1, b.2 ++ m.2 ++ e.2)

/-! ## Trace observations -/

/-- Is this operation the start of a device render pass? -/
def isBeginRenderPass : GpuOp → Bool
  | .beginRenderPass _ _ => true
  | _ => false

/-- Is this operation the start of a device copy pass? -/
def isBeginCopyPass : GpuOp → Bool
  | .beginCopyPass => true
  | _ => false

/-- Is this operation a device draw call (instanced or indexed)? -/
def isDraw : GpuOp → Bool
  | .drawPrimitives _ _ => true
  | .drawIndexedPrimitives _ _ => true
  | _ => false

/-- Operations that create device buffers, record copy passes or record
draws: the device work the spec says must not happen while recording. -/
def isDeviceWork : GpuOp → Bool
  | .createTransferBuffer _ => true
  | .createBuffer _ => true
  | .beginCopyPass => true
  | .uploadToBuffer _ _ => true
  | .drawPrimitives _ _ => true
  | .drawIndexedPrimitives _ _ => true
  | _ => false

/-- A buffer upload whose destination offset is not zero (what a rotating
slot base offset would produce). -/
def isNonzeroOffsetUpload : GpuOp → Bool
  | .uploadToBuffer _ (_ + 1) => true
  | _ => false

/-- The destination byte offsets of the buffer uploads in a trace: the slot
base offsets actually used by the frame's copies. -/
def uploadOffsets (t : List GpuOp) : List Nat :=
  t.filterMap (fun op => match op with
    | .uploadToBuffer _ off => some off
    | _ => none)

/-- Count the operations of a trace satisfying a predicate. -/
def countOp (p : GpuOp → Bool) (t : List GpuOp) : Nat := (t.filter p).length

/-- Is this operation a command-buffer submission? -/
def isSubmit : GpuOp → Bool
  | .submitCommandBuffer => true
  | _ => false

/-- Is this operation an indexed draw? -/
def isIndexedDraw : GpuOp → Bool
  | .drawIndexedPrimitives _ _ => true
  | _ => false

/-- Is this operation a vertex-buffer bind? -/
def isBindVertexBuffers : GpuOp → Bool
  | .bindVertexBuffers => true
  | _ => false

/-- Is this operation an index-buffer bind? -/
def isBindIndexBuffer : GpuOp → Bool
  | .bindIndexBuffer => true
  | _ => false

/-- renderer.c MAX_INSTANCES: the element capacity of the (unused by
Renderer_DrawSprites) persistent instance buffer, the only fixed instance
capacity the source defines. -/
def MAX_INSTANCES : Nat := 10000

/-- The module state while a successfully begun frame is being recorded. -/
def recordingState : RState := (Renderer_BeginFrame initState true true (some 100)).1

/-- The state items that hold throughout a successfully begun frame: command
buffer, swapchain texture and render pass present, all pipelines and the
sampler created. -/
def goodFrame (s : RState) : Prop :=
  s.cmdBuffer = some () ∧ s.renderPass = some () ∧
  (∃ x, s.swapchain = some x) ∧ (∃ x, s.pipeline = some x) ∧
  (∃ x, s.linePipeline = some x) ∧ (∃ x, s.geometryPipeline = some x) ∧
  (∃ x, s.textPipeline = some x) ∧ (∃ x, s.sampler = some x)

/-- A draw-submission call that takes no early-out in a recorded frame:
counts are positive and the sprite texture is non-null. -/
inductive ValidDraw where
  | sprites (texture n : Nat)
  | line
  | geometry (n : Nat)
  | uiGeometry (n : Nat)
  | uiText (vertex_count index_count : Nat) (atlases : List UITextAtlasInfo)
deriving DecidableEq

/-- The recorded call a ValidDraw stands for (counts shifted to be positive). -/
def ValidDraw.toCmd : ValidDraw → DrawCmd
  | .sprites t n => .sprites (some t) (n + 1)
  | .line => .line
  | .geometry n => .geometry (n + 1)
  | .uiGeometry n => .uiGeometry (n + 1)
  | .uiText vc ic atl => .uiText (vc + 1) ic atl

/-- How many additional device render passes each draw call itself begins:
sprite, line and world-geometry draws break and resume the frame pass (one
extra begin); the two UI flushes run their own pass and then begin a fresh
restore pass (two extra begins). -/
def ValidDraw.extraPasses : ValidDraw → Nat
  | .sprites _ _ => 1
  | .line => 1
  | .geometry _ => 1
  | .uiGeometry _ => 2
  | .uiText _ _ _ => 2

/-- Formalization of claim C1 over the embedding: every frame whose trace
reaches a command-buffer submission begins exactly two render passes, the
depth-tested (world) one first and the non-depth screen-space (UI) one
second, and no others. -/
def c1_claim : Prop :=
  ∀ ds : List DrawCmd,
    (runFrame ds).2.contains GpuOp.submitCommandBuffer →
    (runFrame ds).2.filter isBeginRenderPass =
      [GpuOp.beginRenderPass true true, GpuOp.beginRenderPass false false]

/-- Formalization of claim C2 over the embedding: while a frame is being
recorded, a draw-submission call performs no device work (no buffer
creation, copy pass, upload or draw). -/
def c2_claim : Prop :=
  ∀ d : DrawCmd, countOp isDeviceWork (runDraw recordingState d).2 = 0

/-- The sprite sequence of claim C3: (texA,[1,2]), (texA,[3,4]), (texB,[5]),
(texA,[6]) - four Renderer_DrawSprites calls with counts 2, 2, 1, 1. -/
def spriteExample : List DrawCmd :=
  [.sprites (some 1) 2, .sprites (some 1) 2, .sprites (some 2) 1, .sprites (some 1) 1]

/-- Formalization of claim C3 over the embedding: the example sequence yields
exactly 3 sprite batches reaching the device. -/
def c3_claim : Prop := countOp isDraw (runFrame spriteExample).2 = 3

/-- Formalization of claim C5 over the embedding: the boolean returned by the
per-frame begin call is false exactly when the presentation surface is
unavailable that frame. -/
def c5_claim : Prop :=
  ∀ (e : Option MisoEngine) (now : Nat) (surfaceAvailable : Bool),
    ((miso_begin_frame e now).2 = false ↔ surfaceAvailable = false)

/-- Formalization of claim C6 over the embedding: a sprite draw whose payload
exceeds the fixed instance capacity is dropped (no device draw is issued). -/
def c6_claim : Prop :=
  ∀ count : Nat,
    spriteInstanceSize * MAX_INSTANCES < spriteInstanceSize * count →
    countOp isDraw (Renderer_DrawSprites recordingState (some 1) count).2 = 0

/-- Formalization of claim C7 over the embedding: the UI geometry queue never
reallocates its backing storage when a new command arrives. -/
def c7_claim : Prop :=
  ∀ (g : GeometryBatch) (additional : Nat),
    (geometry_ensure_capacity g additional).2 = false

/-- A text batch whose fixed atlas-range array is full (UI_TEXT_MAX_ATLASES
ranges, atlases 1..8, each already holding one quad). -/
def fullTextBatch : TextBatch :=
  { emptyTextBatch with
      atlases := (List.range UI_TEXT_MAX_ATLASES).map (fun i =>
        { atlas := i + 1, start_vertex := 4 * i, vertex_count := 4,
          start_index := 6 * i, index_count := 6 }) }

/-- The geometry batch right after UI_Init. -/
def emptyGeometryBatch : GeometryBatch :=
  { count := 0, capacity := UI_GEOMETRY_INITIAL_CAPACITY }

/-- The number of distinct font atlases a draw-sequence list touches. -/
def distinctAtlases (segs : List AtlasDrawSeq) : Nat :=
  (segs.map AtlasDrawSeq.atlas_texture).dedup.length

/-- The recorded draw list used for the frame-sequence observation: one
one-sprite draw per frame. -/
def demoFrameDraws : List DrawCmd := [.sprites (some 1) 1]

/-- One whole frame starting from an arbitrary module state (the statics
persist across frames). -/
def runFrameStep (s : RState) (ds : List DrawCmd) : RState × List GpuOp :=
  let b := Renderer_BeginFrame s true true (some 100)
  let m := runDraws b.1 ds
  let e := Renderer_EndFrame m.1
  (e.1, b.2 ++ m.2 ++ e.2)

/-- The traces of n consecutive frames, each recording demoFrameDraws,
threading the module state. -/
def framesTraces : Nat → RState → List (List GpuOp)
  | 0, _ => []
  | n + 1, s =>
      let r := runFrameStep s demoFrameDraws
      r.2 :: framesTraces n r.1

/-- The destination base offsets used by frame k's buffer uploads, over a run
of 0..3*framesInFlight frames. -/
def frameSlotOffsets (k : Nat) : List Nat :=
  uploadOffsets ((framesTraces (3 * NK_SDL_GPU_FRAMES_IN_FLIGHT + 1) initState).getD k [])

/-- Formalization of claim C9's slot-distinctness over the embedding: no
frame shares an upload base offset with the frame framesInFlight - 1 later. -/
def c9_claim : Prop :=
  ∀ K : Nat,
    (frameSlotOffsets K).inter
      (frameSlotOffsets (K + (NK_SDL_GPU_FRAMES_IN_FLIGHT - 1))) = []

/-- Formalization of claim C8 over the embedding, as stated - for any number
of distinct atlases, with no bound: a UI text draw whose sequence nodes are
all non-empty records exactly as many atlas ranges as it touches distinct
atlases, and flushing the batch issues exactly that many indexed draws. -/
def c8_claim : Prop :=
  ∀ segs : List AtlasDrawSeq, segs ≠ [] →
    (∀ sg ∈ segs, 0 < sg.num_vertices) →
    (∀ sg ∈ segs, 0 < sg.num_indices) →
    (UI_TextColored emptyTextBatch segs).atlases.length = distinctAtlases segs ∧
    countOp isIndexedDraw
      (UI_Flush recordingState emptyGeometryBatch
        (UI_TextColored emptyTextBatch segs)).2.2.2 = distinctAtlases segs

/-- Nine one-glyph draw-sequence nodes on nine distinct atlases (4 vertices,
6 indices each): one more distinct atlas than the fixed range array holds. -/
def nineAtlasSegs : List AtlasDrawSeq :=
  (List.range 9).map (fun i =>
    { atlas_texture := i + 1, num_vertices := 4, num_indices := 6 })

/-! ## Helper lemmas -/

/-- countOp distributes over trace concatenation. -/
theorem countOp_append (p : GpuOp → Bool) (a b : List GpuOp) :
    countOp p (a ++ b) = countOp p a + countOp p b := by
  simp [countOp, List.filter_append]

/-- Renderer_EndFrame issues no buffer creations, copies or draws, in any
state. -/
theorem endFrame_no_device_work (s : RState) :
    countOp isDeviceWork (Renderer_EndFrame s).2 = 0 := by
  cases hr : s.renderPass <;> cases hc : s.cmdBuffer <;>
    simp [Renderer_EndFrame, hr, hc, countOp, isDeviceWork]

/-- Renderer_EndFrame begins no render pass, in any state. -/
theorem endFrame_no_begin (s : RState) :
    countOp isBeginRenderPass (Renderer_EndFrame s).2 = 0 := by
  cases hr : s.renderPass <;> cases hc : s.cmdBuffer <;>
    simp [Renderer_EndFrame, hr, hc, countOp, isBeginRenderPass]

/-! ## C4 - end-of-frame flush idempotence -/

/-- C4: the end-of-frame flush is idempotent.  For any module state, a second
Renderer_EndFrame without an intervening BeginFrame issues no device
operations at all and leaves the state unchanged; across both invocations the
render pass is ended at most once and the command buffer - when a frame was
open - is submitted exactly once, so the flush work is never duplicated.
(In this renderer the flush performs no copies or draws itself: those are
issued by the draw calls; see C2.) -/
theorem C4_endFrame_idempotent (s : RState) :
    (Renderer_EndFrame (Renderer_EndFrame s).1).2 = [] ∧
    (Renderer_EndFrame (Renderer_EndFrame s).1).1 = (Renderer_EndFrame s).1 ∧
    countOp isSubmit ((Renderer_EndFrame s).2 ++ (Renderer_EndFrame (Renderer_EndFrame s).1).2) =
      (if s.cmdBuffer.isSome then 1 else 0) := by
  cases hr : s.renderPass <;> cases hc : s.cmdBuffer <;>
    simp [Renderer_EndFrame, hr, hc, countOp, isSubmit]

/-! ## C10 - zero-count and no-frame draws are total no-ops -/

/-- C10: with no frame open (null command buffer and render pass, the state
before Renderer_BeginFrame or after a failed surface acquisition), every
public draw operation returns early, issuing no device operation and leaving
the module state untouched; likewise whenever the count argument is zero. -/
theorem C10_draws_noop (s s2 : RState) (tex tex2 : Option Nat)
    (n vc ic ic2 : Nat) (atl atl2 : List UITextAtlasInfo)
    (hcb : s.cmdBuffer = none) (hrp : s.renderPass = none) :
    Renderer_DrawSprites s tex n = (s, []) ∧
    Renderer_DrawLine s = (s, []) ∧
    Renderer_DrawGeometry s n = (s, []) ∧
    Renderer_FlushUIGeometry s n = (s, []) ∧
    Renderer_FlushUIText s vc ic atl = (s, []) ∧
    Renderer_DrawSprites s2 tex2 0 = (s2, []) ∧
    Renderer_DrawGeometry s2 0 = (s2, []) ∧
    Renderer_FlushUIGeometry s2 0 = (s2, []) ∧
    Renderer_FlushUIText s2 0 ic2 atl2 = (s2, []) := by
  refine ⟨?_, ?_, ?_, ?_, ?_, ?_, ?_, ?_, ?_⟩ <;>
    simp [Renderer_DrawSprites, Renderer_DrawLine, Renderer_DrawGeometry,
      Renderer_FlushUIGeometry, Renderer_FlushUIText, hcb, hrp]

/-- Witness for C10 at concrete inputs. -/
theorem C10_draws_noop_witness :
    (initState.cmdBuffer = none ∧ initState.renderPass = none) ∧
    Renderer_DrawSprites initState (some 1) 5 = (initState, []) ∧
    Renderer_FlushUIText recordingState 0 6 [] = (recordingState, []) := by
  have h := C10_draws_noop initState recordingState (some 1) (some 2) 5 7 8 6 [] [] rfl rfl
  exact ⟨⟨rfl, rfl⟩, h.1, h.2.2.2.2.2.2.2.2⟩

/-! ## C5 - beginFrame's boolean vs. surface availability -/

/-- C5 counterexample: the claim that the per-frame begin call returns false
exactly when the presentation surface is unavailable is refuted at a running
engine with the surface unavailable - miso_begin_frame still returns true,
because it only checks the engine's running flag and never the surface
(Renderer_BeginFrame, which does the acquisition, returns void). -/
theorem C5_counterexample : ¬ c5_claim := by
  intro h
  have h2 := (h (some { running := true, lastCounter := 0, simAccumulator := 0 }) 1 false).mpr rfl
  exact absurd h2 (by decide)

/-- C5 amended: no boolean reports surface availability.  miso_begin_frame
returns true for any running engine regardless of the surface, and on
acquisition failure (no swapchain texture) Renderer_BeginFrame submits the
empty command buffer and returns with both the command buffer and the render
pass null - recording is never entered and the frame is silently skipped. -/
theorem C5_amended (e : MisoEngine) (now : Nat) (s : RState) :
    (miso_begin_frame (some { e with running := true }) now).2 = true ∧
    (Renderer_BeginFrame { s with renderPass := none } true true none).1.cmdBuffer = none ∧
    (Renderer_BeginFrame { s with renderPass := none } true true none).1.renderPass = none ∧
    (Renderer_BeginFrame { s with renderPass := none } true true none).2 =
      [.acquireCommandBuffer, .acquireSwapchainTexture, .submitCommandBuffer] := by
  refine ⟨?_, ?_, ?_, ?_⟩ <;> simp [miso_begin_frame, Renderer_BeginFrame]

/-! ## C7 - queue capacity policy -/

/-- C7 counterexample: the claim that a queue's backing storage is never
reallocated when a command would exceed capacity is refuted at the UI
geometry queue holding 4096 vertices at capacity 4096: adding 6 more
vertices calls SDL_realloc (doubling to 8192) instead of dropping. -/
theorem C7_counterexample : ¬ c7_claim := by
  intro h
  exact absurd (h { count := 4096, capacity := 4096 } 6) (by decide)

/-- C7 amended: only the text atlas-range array has a fixed maximum entry
count (UI_TEXT_MAX_ATLASES = 8), whose overflow drops the new range with a
logged warning and leaves the batch unchanged; the UI geometry (and text
vertex/index) queues have no fixed maximum - a command exceeding capacity
reallocates the backing storage, doubling it, whenever it arrives. -/
theorem C7_amended :
    (geometry_ensure_capacity { count := 4096, capacity := 4096 } 6).2 = true ∧
    (geometry_ensure_capacity { count := 4096, capacity := 4096 } 6).1.capacity = 8192 ∧
    (text_get_atlas_range fullTextBatch 9).2 = none ∧
    (text_get_atlas_range fullTextBatch 9).1 = fullTextBatch := by
  refine ⟨by decide, ?_, by decide, by decide⟩
  show (growCap 8192 4102 = 8192)
  rw [growCap]
  norm_num

/-! ## C2 - no device work while recording -/

/-- C2 counterexample: the claim that draw-submission calls perform no device
work during recording is refuted at a single one-sprite Renderer_DrawSprites
call in a recording frame: the call itself creates buffers, records a copy
pass, uploads and draws. -/
theorem C2_counterexample : ¬ c2_claim := by
  intro h
  exact absurd (h (.sprites (some 1) 1)) (by decide)

/-- C2 amended: each draw call performs its own device work immediately and
inline - a sprite draw in a recording frame records exactly one copy pass and
exactly one draw within the call - and the end-of-frame step performs none of
it (Renderer_EndFrame creates no buffer, records no copy pass and no draw, in
any state); there is no deferred single end-of-frame copy pass. -/
theorem C2_amended (n t : Nat) (s : RState) :
    countOp isBeginCopyPass (Renderer_DrawSprites recordingState (some t) (n + 1)).2 = 1 ∧
    countOp isDraw (Renderer_DrawSprites recordingState (some t) (n + 1)).2 = 1 ∧
    countOp isDeviceWork (Renderer_EndFrame s).2 = 0 := by
  refine ⟨?_, ?_, endFrame_no_device_work s⟩ <;>
    simp [Renderer_DrawSprites, recordingState, Renderer_BeginFrame, initState,
      countOp, isBeginCopyPass, isDraw]

/-! ## C6 - stream capacity overflow -/

/-- C6 counterexample: the claim that an over-capacity sprite payload is
dropped is refuted at count = 10001 (payload 480048 bytes, above the
48 * MAX_INSTANCES = 480000 bytes of the only fixed instance capacity in the
source): Renderer_DrawSprites still issues the draw - it has no capacity
check at all. -/
theorem C6_counterexample : ¬ c6_claim := by
  intro h
  have h1 : spriteInstanceSize * MAX_INSTANCES < spriteInstanceSize * 10001 := by decide
  exact absurd (h 10001 h1) (by decide)

/-- C6 amended: Renderer_DrawSprites never drops a positive-count draw for
capacity and keeps no write cursor: for any count it creates a fresh transfer
buffer and a fresh storage buffer of exactly spriteInstanceSize * count bytes,
uploads the whole payload at offset 0 and issues exactly one instanced draw
of that count, leaving the module state as it was. -/
theorem C6_amended (n t : Nat) :
    (Renderer_DrawSprites recordingState (some t) (n + 1)).2 =
      [.createTransferBuffer (spriteInstanceSize * (n + 1)), .mapTransferBuffer,
       .unmapTransferBuffer, .endRenderPass,
       .createBuffer (spriteInstanceSize * (n + 1)),
       .beginCopyPass, .uploadToBuffer (spriteInstanceSize * (n + 1)) 0, .endCopyPass,
       .releaseTransferBuffer,
       .beginRenderPass true false,
       .bindGraphicsPipeline 1, .bindFragmentSamplers t, .bindVertexStorageBuffers,
       .pushVertexUniformData,
       .drawPrimitives 6 (n + 1),
       .releaseBuffer] ∧
    (Renderer_DrawSprites recordingState (some t) (n + 1)).1 = recordingState := by
  constructor <;>
    simp [Renderer_DrawSprites, recordingState, Renderer_BeginFrame, initState]

/-! ## C3 - sprite batching example -/

/-- C3 counterexample: the example sequence (texA,[1,2]), (texA,[3,4]),
(texB,[5]), (texA,[6]) does not yield 3 batches: no queue or merging exists,
so 4 device draws are issued. -/
theorem C3_counterexample : ¬ c3_claim := by
  unfold c3_claim
  decide

/-- C3 amended: Renderer_DrawSprites keeps no queue and merges nothing; each
call immediately issues exactly one instanced draw of its own count, so the
example sequence produces exactly these 4 device draws, in call order. -/
theorem C3_amended :
    (runFrame spriteExample).2.filter isDraw =
      [.drawPrimitives 6 2, .drawPrimitives 6 2,
       .drawPrimitives 6 1, .drawPrimitives 6 1] := by
  decide

/-! ## C9 - frames-in-flight and slot rotation -/

/-- The nuklear debug-UI backend's slot counter: frame n uses slot (n+1) mod 3. -/
theorem nk_frame_slot_eq (n : Nat) : nk_frame_slot n = (n + 1) % 3 := by
  induction n with
  | zero => rfl
  | succ k ih =>
      rw [nk_frame_slot, nk_sdl_gpu_advance_slot, ih]
      simp [NK_SDL_GPU_FRAMES_IN_FLIGHT]

/-- Each per-atlas-range segment of the UI text flush contains no upload at a
nonzero destination offset. -/
theorem flushRange_no_nonzero_upload (r : UITextAtlasInfo) :
    (flushUITextRangeOps r).filter isNonzeroOffsetUpload = [] := by
  unfold flushUITextRangeOps
  split <;> rfl

/-- Each per-atlas-range segment of the UI text flush starts no render pass. -/
theorem flushRange_no_begin (r : UITextAtlasInfo) :
    (flushUITextRangeOps r).filter isBeginRenderPass = [] := by
  unfold flushUITextRangeOps
  split <;> rfl

/-- Each per-atlas-range segment of the UI text flush submits nothing. -/
theorem flushRange_no_submit (r : UITextAtlasInfo) :
    (flushUITextRangeOps r).filter isSubmit = [] := by
  unfold flushUITextRangeOps
  split <;> rfl

/-- Filtering the concatenated per-range segments gives nothing when each
segment filters to nothing. -/
theorem filter_flatten_eq_nil (p : GpuOp → Bool) (atl : List UITextAtlasInfo)
    (h : ∀ r ∈ atl, (flushUITextRangeOps r).filter p = []) :
    ((atl.map flushUITextRangeOps).flatten).filter p = [] := by
  induction atl with
  | nil => rfl
  | cons a l ih =>
      simp only [List.map_cons, List.flatten_cons, List.filter_append]
      rw [h a (by simp), ih (fun r hr => h r (by simp [hr]))]
      rfl

/-- No renderer.c draw call ever uploads at a nonzero destination offset:
every copy targets offset 0 of a freshly created buffer. -/
theorem runDraw_no_nonzero_upload (s : RState) (d : DrawCmd) :
    (runDraw s d).2.filter isNonzeroOffsetUpload = [] := by
  cases d with
  | sprites tex n =>
      simp only [runDraw, Renderer_DrawSprites]
      split_ifs <;> rfl
  | line =>
      simp only [runDraw, Renderer_DrawLine]
      split_ifs <;> rfl
  | geometry n =>
      simp only [runDraw, Renderer_DrawGeometry]
      split_ifs <;> rfl
  | uiGeometry n =>
      simp only [runDraw, Renderer_FlushUIGeometry]
      split_ifs <;> rfl
  | uiText vc ic atl =>
      simp only [runDraw, Renderer_FlushUIText]
      split_ifs <;>
        simp [List.filter_append,
          filter_flatten_eq_nil isNonzeroOffsetUpload atl
            (fun r _ => flushRange_no_nonzero_upload r),
          isNonzeroOffsetUpload]

/-- Lifting runDraw_no_nonzero_upload over a recorded frame's draw list. -/
theorem runDraws_no_nonzero_upload (ds : List DrawCmd) :
    ∀ s : RState, (runDraws s ds).2.filter isNonzeroOffsetUpload = [] := by
  induction ds with
  | nil => intro s; rfl
  | cons d ds ih =>
      intro s
      simp [runDraws, List.filter_append, runDraw_no_nonzero_upload, ih]

/-- Renderer_EndFrame uploads nothing. -/
theorem endFrame_no_upload (s : RState) :
    (Renderer_EndFrame s).2.filter isNonzeroOffsetUpload = [] := by
  cases hr : s.renderPass <;> cases hc : s.cmdBuffer <;>
    simp [Renderer_EndFrame, hr, hc, isNonzeroOffsetUpload]

/-- C9 counterexample: the claim that no two frames K and
K + framesInFlight - 1 use the same slot base offset is refuted at K = 0 of a
ten-frame run: every frame's uploads target base offset 0 of per-draw
transient buffers, so frames 0 and 2 share the (only) offset. -/
theorem C9_counterexample : ¬ c9_claim := by
  intro h
  exact absurd (h 0) (by decide)

/-- C9 amended: renderer.c maintains no ring slots and no frames-in-flight
rotation - every buffer upload of every frame targets destination offset 0 of
a freshly created buffer, so all frames use the same base offset.  The only
frames-in-flight ring in the repository is the nuklear debug-UI backend
(NK_SDL_GPU_FRAMES_IN_FLIGHT = 3), and it advances its slot once per rendered
UI frame inside nk_sdl_gpu_render, not at any BeginFrame; for that ring the
slot sequence is periodic with period 3 and frames k and k + 2 never share a
slot. -/
theorem C9_amended (ds : List DrawCmd) (k : Nat) :
    (runFrame ds).2.filter isNonzeroOffsetUpload = [] ∧
    nk_frame_slot (k + NK_SDL_GPU_FRAMES_IN_FLIGHT) = nk_frame_slot k ∧
    nk_frame_slot k ≠ nk_frame_slot (k + (NK_SDL_GPU_FRAMES_IN_FLIGHT - 1)) := by
  refine ⟨?_, ?_, ?_⟩
  · simp [runFrame, List.filter_append, runDraws_no_nonzero_upload,
      endFrame_no_upload, Renderer_BeginFrame, initState, isNonzeroOffsetUpload]
  · simp [nk_frame_slot_eq, NK_SDL_GPU_FRAMES_IN_FLIGHT]
    omega
  · simp [nk_frame_slot_eq, NK_SDL_GPU_FRAMES_IN_FLIGHT]
    omega

/-! ## C1 - passes per frame -/

/-- goodFrame is preserved by re-beginning the render pass. -/
theorem goodFrame_update (s : RState) (h : goodFrame s) :
    goodFrame { s with renderPass := some () } := by
  obtain ⟨hc, _, hsw, hp, hlp, hgp, htp, hsm⟩ := h
  exact ⟨hc, rfl, hsw, hp, hlp, hgp, htp, hsm⟩

/-- In a recorded frame, every valid draw call leaves the frame open (with
the render pass re-begun), begins exactly `extraPasses` additional render
passes and submits nothing. -/
theorem runDraw_valid (s : RState) (h : goodFrame s) (v : ValidDraw) :
    (runDraw s v.toCmd).1 = { s with renderPass := some () } ∧
    countOp isBeginRenderPass (runDraw s v.toCmd).2 = v.extraPasses ∧
    countOp isSubmit (runDraw s v.toCmd).2 = 0 := by
  obtain ⟨hc, hr, ⟨sw, hsw⟩, ⟨p, hp⟩, ⟨lp, hlp⟩, ⟨gp, hgp⟩, ⟨tp, htp⟩, ⟨sm, hsm⟩⟩ := h
  cases v with
  | sprites t n =>
      refine ⟨?_, ?_, ?_⟩ <;>
        simp [ValidDraw.toCmd, runDraw, Renderer_DrawSprites, ValidDraw.extraPasses,
          hr, hp, hsm, countOp, isBeginRenderPass, isSubmit]
  | line =>
      refine ⟨?_, ?_, ?_⟩ <;>
        simp [ValidDraw.toCmd, runDraw, Renderer_DrawLine, ValidDraw.extraPasses,
          hr, hlp, countOp, isBeginRenderPass, isSubmit]
  | geometry n =>
      refine ⟨?_, ?_, ?_⟩ <;>
        simp [ValidDraw.toCmd, runDraw, Renderer_DrawGeometry, ValidDraw.extraPasses,
          hr, hgp, countOp, isBeginRenderPass, isSubmit]
  | uiGeometry n =>
      refine ⟨?_, ?_, ?_⟩ <;>
        simp [ValidDraw.toCmd, runDraw, Renderer_FlushUIGeometry, ValidDraw.extraPasses,
          hr, hc, hsw, hgp, countOp, isBeginRenderPass, isSubmit]
  | uiText vc ic atl =>
      refine ⟨?_, ?_, ?_⟩ <;>
        simp [ValidDraw.toCmd, runDraw, Renderer_FlushUIText, ValidDraw.extraPasses,
          hr, hc, hsw, htp, countOp, isBeginRenderPass, isSubmit, List.filter_append,
          filter_flatten_eq_nil isBeginRenderPass atl (fun r _ => flushRange_no_begin r),
          filter_flatten_eq_nil isSubmit atl (fun r _ => flushRange_no_submit r)]

/-- Folding runDraw_valid over a list of valid draws. -/
theorem runDraws_valid (vs : List ValidDraw) :
    ∀ s : RState, goodFrame s →
    goodFrame (runDraws s (vs.map ValidDraw.toCmd)).1 ∧
    countOp isBeginRenderPass (runDraws s (vs.map ValidDraw.toCmd)).2 =
      (vs.map ValidDraw.extraPasses).sum ∧
    countOp isSubmit (runDraws s (vs.map ValidDraw.toCmd)).2 = 0 := by
  induction vs with
  | nil =>
      intro s h
      exact ⟨h, rfl, rfl⟩
  | cons v vs ih =>
      intro s h
      obtain ⟨e1, e2, e3⟩ := runDraw_valid s h v
      have hg : goodFrame (runDraw s v.toCmd).1 := by
        rw [e1]; exact goodFrame_update s h
      obtain ⟨g2, c2, c3⟩ := ih (runDraw s v.toCmd).1 hg
      simp only [List.map_cons, runDraws]
      exact ⟨g2, by simp [countOp_append, e2, c2], by simp [countOp_append, e3, c3]⟩

/-- C1 counterexample: the claim that every submitted frame emits exactly two
render passes (world then UI) is refuted by the empty frame: it reaches
submission but begins exactly one render pass (the clearing depth pass), and
no UI pass at all. -/
theorem C1_counterexample : ¬ c1_claim := by
  intro h
  exact absurd (h [] (by decide)) (by decide)

/-- C1 amended: a frame that reaches submission begins 1 + the sum of the
draws' own extra passes, not a fixed two: Renderer_BeginFrame begins the
clearing depth pass, each sprite / line / world-geometry draw breaks and
resumes the pass (one extra begin each), and each UI geometry or UI text
flush runs its own pass and then begins a restore pass (two extra begins
each); the command buffer is still submitted exactly once per frame. -/
theorem C1_amended (vs : List ValidDraw) :
    countOp isBeginRenderPass (runFrame (vs.map ValidDraw.toCmd)).2 =
      1 + (vs.map ValidDraw.extraPasses).sum ∧
    countOp isSubmit (runFrame (vs.map ValidDraw.toCmd)).2 = 1 := by
  have hg : goodFrame (Renderer_BeginFrame initState true true (some 100)).1 :=
    ⟨rfl, rfl, ⟨100, rfl⟩, ⟨1, rfl⟩, ⟨2, rfl⟩, ⟨3, rfl⟩, ⟨4, rfl⟩, ⟨5, rfl⟩⟩
  obtain ⟨gf, cb, cs⟩ :=
    runDraws_valid vs (Renderer_BeginFrame initState true true (some 100)).1 hg
  obtain ⟨hfc, hfr, _⟩ := gf
  constructor
  · simp only [runFrame, countOp_append]
    rw [cb, endFrame_no_begin]
    rfl
  · simp only [runFrame, countOp_append]
    rw [cs]
    have : countOp isSubmit
        (Renderer_EndFrame (runDraws (Renderer_BeginFrame initState true true
          (some 100)).1 (vs.map ValidDraw.toCmd)).1).2 = 1 := by
      simp [Renderer_EndFrame, hfc, hfr, countOp, isSubmit]
    rw [this]
    rfl

/-! ## C8 - text atlas multiplexing -/

/-- text_ensure_capacity only grows the capacity fields: the counts and the
atlas ranges are untouched. -/
theorem text_ensure_capacity_counts (b : TextBatch) (av ai : Nat) :
    (text_ensure_capacity b av ai).atlases = b.atlases ∧
    (text_ensure_capacity b av ai).vertex_count = b.vertex_count ∧
    (text_ensure_capacity b av ai).index_count = b.index_count := by
  simp only [text_ensure_capacity]
  split_ifs <;> simp

/-- The scan of text_get_atlas_range misses exactly when the atlas is not
among the ranges. -/
theorem text_find_atlas_eq_none (rs : List TextAtlasRange) (a : Nat) :
    text_find_atlas rs a = none ↔ a ∉ rs.map TextAtlasRange.atlas := by
  induction rs with
  | nil => simp [text_find_atlas]
  | cons r rs ih =>
      by_cases hra : r.atlas = a
      · simp [text_find_atlas, hra]
      · simp [text_find_atlas, hra, Option.map_eq_none', ih, Ne.symm hra]

/-- modifyAt with an atlas-preserving function leaves the atlas list as is. -/
theorem modifyAt_map_atlas (l : List TextAtlasRange) (i : Nat)
    (f : TextAtlasRange → TextAtlasRange) (hf : ∀ r, (f r).atlas = r.atlas) :
    (modifyAt l i f).map TextAtlasRange.atlas = l.map TextAtlasRange.atlas := by
  induction l generalizing i with
  | nil => rfl
  | cons r rs ih =>
      cases i with
      | zero => simp [modifyAt, hf]
      | succ j => simp [modifyAt, ih]

/-- modifyAt preserves a predicate the function preserves. -/
theorem modifyAt_forall {P : TextAtlasRange → Prop} (l : List TextAtlasRange)
    (i : Nat) (f : TextAtlasRange → TextAtlasRange)
    (hl : ∀ r ∈ l, P r) (hf : ∀ r, P r → P (f r)) :
    ∀ r ∈ modifyAt l i f, P r := by
  induction l generalizing i with
  | nil => intro r hr; simp [modifyAt] at hr
  | cons a rs ih =>
      cases i with
      | zero =>
          intro r hr
          rcases List.mem_cons.mp hr with h | h
          · exact h ▸ hf a (hl a (by simp))
          · exact hl r (by simp [h])
      | succ j =>
          intro r hr
          rcases List.mem_cons.mp hr with h | h
          · exact h ▸ hl a (by simp)
          · exact ih j (fun x hx => hl x (by simp [hx])) r h

/-- Modifying the entry just appended rewrites it in place. -/
theorem modifyAt_append_singleton (l : List TextAtlasRange) (r : TextAtlasRange)
    (f : TextAtlasRange → TextAtlasRange) :
    modifyAt (l ++ [r]) l.length f = l ++ [f r] := by
  induction l with
  | nil => rfl
  | cons a as ih => simp [modifyAt, ih]

/-- Each non-empty atlas range of the UI text flush issues exactly one
indexed draw. -/
theorem countOp_flatten_indexed (infos : List UITextAtlasInfo)
    (h : ∀ r ∈ infos, 0 < r.index_count) :
    countOp isIndexedDraw ((infos.map flushUITextRangeOps).flatten) = infos.length := by
  induction infos with
  | nil => rfl
  | cons a l ih =>
      have ha : 0 < a.index_count := h a (by simp)
      simp only [List.map_cons, List.flatten_cons, countOp_append, List.length_cons]
      rw [ih (fun r hr => h r (by simp [hr]))]
      have h1 : countOp isIndexedDraw (flushUITextRangeOps a) = 1 := by
        unfold flushUITextRangeOps
        rw [if_neg (by omega)]
        rfl
      omega

/-- The per-atlas-range segments bind no vertex buffer. -/
theorem flushRange_no_bindVB (r : UITextAtlasInfo) :
    (flushUITextRangeOps r).filter isBindVertexBuffers = [] := by
  unfold flushUITextRangeOps
  split <;> rfl

/-- The per-atlas-range segments bind no index buffer. -/
theorem flushRange_no_bindIB (r : UITextAtlasInfo) :
    (flushUITextRangeOps r).filter isBindIndexBuffer = [] := by
  unfold flushUITextRangeOps
  split <;> rfl

/-- Core invariant of UI_TextColored: when the distinct atlases of the
incoming draw sequence (together with those already batched) fit into the
fixed range array, every sequence node is accepted; the per-atlas ranges stay
duplicate-free with positive index counts, the range set becomes the union of
the old set with the sequence's atlases, and every node's vertices are
appended. -/
theorem ui_text_process (segs : List AtlasDrawSeq) :
    ∀ b : TextBatch,
    (∀ sg ∈ segs, 0 < sg.num_indices) →
    (b.atlases.map TextAtlasRange.atlas).Nodup →
    (∀ r ∈ b.atlases, 0 < r.index_count) →
    ((b.atlases.map TextAtlasRange.atlas).toFinset ∪
      (segs.map AtlasDrawSeq.atlas_texture).toFinset).card ≤ UI_TEXT_MAX_ATLASES →
    ((UI_TextColored b segs).atlases.map TextAtlasRange.atlas).Nodup ∧
    (∀ r ∈ (UI_TextColored b segs).atlases, 0 < r.index_count) ∧
    ((UI_TextColored b segs).atlases.map TextAtlasRange.atlas).toFinset =
      (b.atlases.map TextAtlasRange.atlas).toFinset ∪
        (segs.map AtlasDrawSeq.atlas_texture).toFinset ∧
    (UI_TextColored b segs).vertex_count =
      b.vertex_count + (segs.map AtlasDrawSeq.num_vertices).sum := by
  induction segs with
  | nil =>
      intro b _ h2 h3 _
      exact ⟨h2, h3, by simp [UI_TextColored], by simp [UI_TextColored]⟩
  | cons sg rest ih =>
      intro b h1 h2 h3 hcard
      have hrest : ∀ x ∈ rest, 0 < x.num_indices := fun x hx => h1 x (by simp [hx])
      have hUT : UI_TextColored b (sg :: rest) =
          UI_TextColored (ui_text_step b sg) rest := rfl
      cases hfind : text_find_atlas b.atlases sg.atlas_texture with
      | some i =>
          have hmem : sg.atlas_texture ∈ b.atlases.map TextAtlasRange.atlas := by
            by_contra hnm
            have hn := (text_find_atlas_eq_none _ _).mpr hnm
            rw [hfind] at hn
            exact Option.noConfusion hn
          have htga : text_get_atlas_range b sg.atlas_texture = (b, some i) := by
            simp [text_get_atlas_range, hfind]
          have hA : (ui_text_step b sg).atlases =
              modifyAt b.atlases i (fun r =>
                { r with vertex_count := r.vertex_count + sg.num_vertices,
                         index_count := r.index_count + sg.num_indices }) := by
            simp only [ui_text_step, htga]
            rw [(text_ensure_capacity_counts _ _ _).1]
          have hV : (ui_text_step b sg).vertex_count =
              b.vertex_count + sg.num_vertices := by
            simp only [ui_text_step, htga]
            rw [(text_ensure_capacity_counts _ _ _).2.1]
          have hmap : ((ui_text_step b sg).atlases.map TextAtlasRange.atlas) =
              b.atlases.map TextAtlasRange.atlas := by
            rw [hA]
            exact modifyAt_map_atlas _ _ _ (fun r => rfl)
          have hpos : ∀ r ∈ (ui_text_step b sg).atlases, 0 < r.index_count := by
            rw [hA]
            exact modifyAt_forall _ _ _ h3
              (fun r hr => Nat.lt_of_lt_of_le hr (Nat.le_add_right _ _))
          have hsubset : (b.atlases.map TextAtlasRange.atlas).toFinset ∪
              (rest.map AtlasDrawSeq.atlas_texture).toFinset ⊆
              (b.atlases.map TextAtlasRange.atlas).toFinset ∪
                ((sg :: rest).map AtlasDrawSeq.atlas_texture).toFinset := by
            intro x hx
            rcases Finset.mem_union.mp hx with h | h
            · exact Finset.mem_union_left _ h
            · refine Finset.mem_union_right _ ?_
              simp only [List.map_cons, List.toFinset_cons]
              exact Finset.mem_insert_of_mem h
          have hcard2 : (((ui_text_step b sg).atlases.map TextAtlasRange.atlas).toFinset ∪
              (rest.map AtlasDrawSeq.atlas_texture).toFinset).card ≤ UI_TEXT_MAX_ATLASES := by
            rw [hmap]
            exact le_trans (Finset.card_le_card hsubset) hcard
          obtain ⟨i1, i2, i3, i4⟩ := ih (ui_text_step b sg) hrest
            (hmap ▸ h2) hpos hcard2
          rw [hUT]
          refine ⟨i1, i2, ?_, ?_⟩
          · rw [i3, hmap]
            simp only [List.map_cons, List.toFinset_cons]
            rw [Finset.union_insert, Finset.insert_eq_self.mpr
              (Finset.mem_union_left _ (List.mem_toFinset.mpr hmem))]
          · rw [i4, hV]
            simp only [List.map_cons, List.sum_cons]
            omega
      | none =>
          have hnotmem : sg.atlas_texture ∉ b.atlases.map TextAtlasRange.atlas :=
            (text_find_atlas_eq_none _ _).mp hfind
          by_cases hlen : UI_TEXT_MAX_ATLASES ≤ b.atlases.length
          · exfalso
            have hsub : insert sg.atlas_texture
                (b.atlases.map TextAtlasRange.atlas).toFinset ⊆
                (b.atlases.map TextAtlasRange.atlas).toFinset ∪
                  ((sg :: rest).map AtlasDrawSeq.atlas_texture).toFinset := by
              intro x hx
              rcases Finset.mem_insert.mp hx with h | h
              · subst h
                refine Finset.mem_union_right _ ?_
                simp
              · exact Finset.mem_union_left _ h
            have hcard2 := Finset.card_le_card hsub
            rw [Finset.card_insert_of_not_mem
              (fun hmm => hnotmem (List.mem_toFinset.mp hmm))] at hcard2
            have hlencard : (b.atlases.map TextAtlasRange.atlas).toFinset.card =
                b.atlases.length := by
              rw [List.toFinset_card_of_nodup h2, List.length_map]
            have := le_trans hcard2 hcard
            rw [hlencard] at this
            simp [UI_TEXT_MAX_ATLASES] at this hlen
            omega
          · push_neg at hlen
            have htga : text_get_atlas_range b sg.atlas_texture =
                ({ b with atlases := b.atlases ++
                    [{ atlas := sg.atlas_texture, start_vertex := b.vertex_count,
                       vertex_count := 0, start_index := b.index_count,
                       index_count := 0 }] },
                 some b.atlases.length) := by
              simp [text_get_atlas_range, hfind, Nat.not_le.mpr hlen]
            have hA : (ui_text_step b sg).atlases =
                b.atlases ++
                  [{ atlas := sg.atlas_texture, start_vertex := b.vertex_count,
                     vertex_count := 0 + sg.num_vertices,
                     start_index := b.index_count,
                     index_count := 0 + sg.num_indices }] := by
              simp only [ui_text_step, htga]
              rw [(text_ensure_capacity_counts _ _ _).1]
              exact modifyAt_append_singleton _ _ _
            have hV : (ui_text_step b sg).vertex_count =
                b.vertex_count + sg.num_vertices := by
              simp only [ui_text_step, htga]
              rw [(text_ensure_capacity_counts _ _ _).2.1]
            have hmap : ((ui_text_step b sg).atlases.map TextAtlasRange.atlas) =
                b.atlases.map TextAtlasRange.atlas ++ [sg.atlas_texture] := by
              rw [hA]
              simp
            have hnd : ((ui_text_step b sg).atlases.map TextAtlasRange.atlas).Nodup := by
              rw [hmap]
              simp [List.nodup_append, h2, hnotmem]
            have hpos : ∀ r ∈ (ui_text_step b sg).atlases, 0 < r.index_count := by
              rw [hA]
              intro r hr
              rcases List.mem_append.mp hr with h | h
              · exact h3 r h
              · rw [List.mem_singleton.mp h]
                have := h1 sg (by simp)
                simpa using this
            have hsetstep : ((ui_text_step b sg).atlases.map TextAtlasRange.atlas).toFinset =
                insert sg.atlas_texture (b.atlases.map TextAtlasRange.atlas).toFinset := by
              rw [hmap, List.toFinset_append, Finset.union_comm]
              simp [Finset.insert_eq]
            have hcard2 : (((ui_text_step b sg).atlases.map TextAtlasRange.atlas).toFinset ∪
                (rest.map AtlasDrawSeq.atlas_texture).toFinset).card ≤ UI_TEXT_MAX_ATLASES := by
              rw [hsetstep, Finset.insert_union, ← Finset.union_insert]
              have : insert sg.atlas_texture
                  (rest.map AtlasDrawSeq.atlas_texture).toFinset =
                  ((sg :: rest).map AtlasDrawSeq.atlas_texture).toFinset := by
                simp
              rw [this]
              exact hcard
            obtain ⟨i1, i2, i3, i4⟩ := ih (ui_text_step b sg) hrest hnd hpos hcard2
            rw [hUT]
            refine ⟨i1, i2, ?_, ?_⟩
            · rw [i3, hsetstep]
              simp only [List.map_cons, List.toFinset_cons]
              rw [Finset.insert_union, ← Finset.union_insert]
            · rw [i4, hV]
              simp only [List.map_cons, List.sum_cons]
              omega

/-- The device trace of a UI text flush in a recording frame. -/
theorem flushUIText_trace (vc ic : Nat) (hvc : vc ≠ 0) (infos : List UITextAtlasInfo) :
    (Renderer_FlushUIText recordingState vc ic infos).2 =
      [GpuOp.endRenderPass,
       .createTransferBuffer (textVertexStride * vc + textIndexSize * ic),
       .mapTransferBuffer, .unmapTransferBuffer,
       .createBuffer (textVertexStride * vc), .createBuffer (textIndexSize * ic),
       .beginCopyPass, .uploadToBuffer (textVertexStride * vc) 0,
       .uploadToBuffer (textIndexSize * ic) 0, .endCopyPass,
       .releaseTransferBuffer, .beginRenderPass false false,
       .bindGraphicsPipeline 4, .bindVertexBuffers, .bindIndexBuffer,
       .pushVertexUniformData, .pushFragmentUniformData] ++
      (infos.map flushUITextRangeOps).flatten ++
      [GpuOp.endRenderPass, .releaseBuffer, .releaseBuffer,
       .beginRenderPass true false] := by
  simp [Renderer_FlushUIText, recordingState, Renderer_BeginFrame, initState, hvc]

/-- In a recording frame, a UI text flush whose atlas ranges are all
non-empty binds the vertex and index buffers exactly once and issues exactly
one indexed draw per range. -/
theorem flushUIText_counts (vc ic : Nat) (hvc : vc ≠ 0)
    (infos : List UITextAtlasInfo) (h : ∀ r ∈ infos, 0 < r.index_count) :
    countOp isIndexedDraw (Renderer_FlushUIText recordingState vc ic infos).2 =
      infos.length ∧
    countOp isBindVertexBuffers (Renderer_FlushUIText recordingState vc ic infos).2 = 1 ∧
    countOp isBindIndexBuffer (Renderer_FlushUIText recordingState vc ic infos).2 = 1 := by
  rw [flushUIText_trace vc ic hvc infos]
  refine ⟨?_, ?_, ?_⟩
  · rw [countOp_append, countOp_append, countOp_flatten_indexed infos h]
    show 0 + infos.length + 0 = infos.length
    omega
  · have h0 : countOp isBindVertexBuffers ((infos.map flushUITextRangeOps).flatten) = 0 := by
      simp [countOp,
        filter_flatten_eq_nil isBindVertexBuffers infos (fun r _ => flushRange_no_bindVB r)]
    rw [countOp_append, countOp_append, h0]
    rfl
  · have h0 : countOp isBindIndexBuffer ((infos.map flushUITextRangeOps).flatten) = 0 := by
      simp [countOp,
        filter_flatten_eq_nil isBindIndexBuffer infos (fun r _ => flushRange_no_bindIB r)]
    rw [countOp_append, countOp_append, h0]
    rfl

/-- Within the fixed range-array capacity: a UI text draw touching k distinct
font atlases with k at most UI_TEXT_MAX_ATLASES (every sequence node carrying
at least one vertex and one index) records exactly k atlas ranges in the
batch, and flushing the batch binds the vertex and index buffers once and
issues exactly k indexed device draws in the screen-space UI pass, one per
distinct atlas. -/
theorem ui_text_flush_within_capacity (segs : List AtlasDrawSeq)
    (hne : segs ≠ [])
    (hv : ∀ sg ∈ segs, 0 < sg.num_vertices)
    (hi : ∀ sg ∈ segs, 0 < sg.num_indices)
    (hk : distinctAtlases segs ≤ UI_TEXT_MAX_ATLASES) :
    (UI_TextColored emptyTextBatch segs).atlases.length = distinctAtlases segs ∧
    countOp isIndexedDraw
      (UI_Flush recordingState emptyGeometryBatch
        (UI_TextColored emptyTextBatch segs)).2.2.2 = distinctAtlases segs ∧
    countOp isBindVertexBuffers
      (UI_Flush recordingState emptyGeometryBatch
        (UI_TextColored emptyTextBatch segs)).2.2.2 = 1 ∧
    countOp isBindIndexBuffer
      (UI_Flush recordingState emptyGeometryBatch
        (UI_TextColored emptyTextBatch segs)).2.2.2 = 1 := by
  have hcard0 : ((emptyTextBatch.atlases.map TextAtlasRange.atlas).toFinset ∪
      (segs.map AtlasDrawSeq.atlas_texture).toFinset).card ≤ UI_TEXT_MAX_ATLASES := by
    simpa [emptyTextBatch, List.card_toFinset, distinctAtlases] using hk
  obtain ⟨hnd, hpos, hset, hvcount⟩ := ui_text_process segs emptyTextBatch hi
    (by simp [emptyTextBatch]) (by simp [emptyTextBatch]) hcard0
  have hlen : (UI_TextColored emptyTextBatch segs).atlases.length =
      distinctAtlases segs := by
    have h1 : ((UI_TextColored emptyTextBatch segs).atlases.map
        TextAtlasRange.atlas).toFinset.card =
        (UI_TextColored emptyTextBatch segs).atlases.length := by
      rw [List.toFinset_card_of_nodup hnd, List.length_map]
    rw [hset] at h1
    simp only [emptyTextBatch, List.map_nil, List.toFinset_nil,
      Finset.empty_union, List.card_toFinset] at h1
    exact h1.symm
  have hsum : 0 < (segs.map AtlasDrawSeq.num_vertices).sum := by
    cases segs with
    | nil => exact absurd rfl hne
    | cons a l =>
        have := hv a (by simp)
        simp only [List.map_cons, List.sum_cons]
        omega
  have hvpos : (UI_TextColored emptyTextBatch segs).vertex_count ≠ 0 := by
    rw [hvcount]
    simp only [emptyTextBatch]
    omega
  have hflush : (UI_Flush recordingState emptyGeometryBatch
      (UI_TextColored emptyTextBatch segs)).2.2.2 =
      (Renderer_FlushUIText recordingState
        (UI_TextColored emptyTextBatch segs).vertex_count
        (UI_TextColored emptyTextBatch segs).index_count
        ((UI_TextColored emptyTextBatch segs).atlases.map (fun a =>
          { atlas := a.atlas, start_index := a.start_index,
            index_count := a.index_count }))).2 := by
    simp [UI_Flush, emptyGeometryBatch, Nat.pos_of_ne_zero hvpos]
  have hinfos : ∀ r ∈ (UI_TextColored emptyTextBatch segs).atlases.map (fun a =>
      ({ atlas := a.atlas, start_index := a.start_index,
         index_count := a.index_count } : UITextAtlasInfo)), 0 < r.index_count := by
    intro r hr
    rcases List.mem_map.mp hr with ⟨a, ha, rfl⟩
    exact hpos a ha
  obtain ⟨f1, f2, f3⟩ := flushUIText_counts _ _ hvpos _ hinfos
  refine ⟨hlen, ?_, ?_, ?_⟩ <;> rw [hflush]
  · rw [f1, List.length_map, hlen]
  · exact f2
  · exact f3

/-- modifyAt never changes the length of the range list. -/
theorem modifyAt_length (l : List TextAtlasRange) (i : Nat)
    (f : TextAtlasRange → TextAtlasRange) :
    (modifyAt l i f).length = l.length := by
  induction l generalizing i with
  | nil => rfl
  | cons a as ih =>
      cases i with
      | zero => rfl
      | succ j => simp [modifyAt, ih]

/-- One UI_TextColored loop iteration never pushes the range list past the
fixed UI_TEXT_MAX_ATLASES: a known atlas merges in place, a new atlas is
appended only while the array has room, and otherwise the node is dropped
with a logged warning. -/
theorem ui_text_step_length_le (b : TextBatch) (sg : AtlasDrawSeq)
    (h : b.atlases.length ≤ UI_TEXT_MAX_ATLASES) :
    (ui_text_step b sg).atlases.length ≤ UI_TEXT_MAX_ATLASES := by
  cases hfind : text_find_atlas b.atlases sg.atlas_texture with
  | some i =>
      have htga : text_get_atlas_range b sg.atlas_texture = (b, some i) := by
        simp [text_get_atlas_range, hfind]
      have hA : (ui_text_step b sg).atlases =
          modifyAt b.atlases i (fun r =>
            { r with vertex_count := r.vertex_count + sg.num_vertices,
                     index_count := r.index_count + sg.num_indices }) := by
        simp only [ui_text_step, htga]
        rw [(text_ensure_capacity_counts _ _ _).1]
      rw [hA, modifyAt_length]
      exact h
  | none =>
      by_cases hlen : UI_TEXT_MAX_ATLASES ≤ b.atlases.length
      · have htga : text_get_atlas_range b sg.atlas_texture = (b, none) := by
          simp [text_get_atlas_range, hfind, hlen]
        simp only [ui_text_step, htga]
        exact h
      · push_neg at hlen
        have htga : text_get_atlas_range b sg.atlas_texture =
            ({ b with atlases := b.atlases ++
                [{ atlas := sg.atlas_texture, start_vertex := b.vertex_count,
                   vertex_count := 0, start_index := b.index_count,
                   index_count := 0 }] },
             some b.atlases.length) := by
          simp [text_get_atlas_range, hfind, Nat.not_le.mpr hlen]
        have hA : (ui_text_step b sg).atlases =
            b.atlases ++
              [{ atlas := sg.atlas_texture, start_vertex := b.vertex_count,
                 vertex_count := 0 + sg.num_vertices,
                 start_index := b.index_count,
                 index_count := 0 + sg.num_indices }] := by
          simp only [ui_text_step, htga]
          rw [(text_ensure_capacity_counts _ _ _).1]
          exact modifyAt_append_singleton _ _ _
        rw [hA]
        simp only [List.length_append, List.length_singleton]
        omega

/-- The range list of a text batch never exceeds UI_TEXT_MAX_ATLASES entries,
whatever is drawn. -/
theorem UI_TextColored_atlases_le (segs : List AtlasDrawSeq) :
    ∀ b : TextBatch, b.atlases.length ≤ UI_TEXT_MAX_ATLASES →
    (UI_TextColored b segs).atlases.length ≤ UI_TEXT_MAX_ATLASES := by
  induction segs with
  | nil => intro b h; exact h
  | cons sg rest ih =>
      intro b h
      exact ih (ui_text_step b sg) (ui_text_step_length_le b sg h)

/-- C8 counterexample: the unbounded k-ranges / k-draws claim fails at a text
draw touching nine distinct atlases: ui.c's fixed UI_TEXT_MAX_ATLASES range
array is full after eight, text_get_atlas_range drops the ninth distinct
atlas with a logged warning, and the batch records 8 ranges while the flush
issues 8 indexed draws - not 9. -/
theorem C8_counterexample : ¬ c8_claim := by
  intro h
  have h9 := h nineAtlasSegs (by decide) (by decide) (by decide)
  exact absurd h9.1 (by decide)

/-- C8 amended: the k-ranges / k-draws correspondence holds exactly up to the
fixed range-array size.  (1) A text draw touching k ≤ UI_TEXT_MAX_ATLASES = 8
distinct atlases (all sequence nodes non-empty) records exactly k atlas
ranges, and flushing the batch binds the vertex and index buffers once and
issues exactly k indexed draws, one per distinct atlas.  (2) The batch never
records more than 8 ranges, whatever is drawn.  (3) A draw touching nine
distinct atlases has the ninth dropped with a logged warning: it records
exactly 8 ranges and its flush issues exactly 8 indexed draws. -/
theorem C8_amended :
    (∀ segs : List AtlasDrawSeq, segs ≠ [] →
      (∀ sg ∈ segs, 0 < sg.num_vertices) →
      (∀ sg ∈ segs, 0 < sg.num_indices) →
      distinctAtlases segs ≤ UI_TEXT_MAX_ATLASES →
      (UI_TextColored emptyTextBatch segs).atlases.length = distinctAtlases segs ∧
      countOp isIndexedDraw
        (UI_Flush recordingState emptyGeometryBatch
          (UI_TextColored emptyTextBatch segs)).2.2.2 = distinctAtlases segs ∧
      countOp isBindVertexBuffers
        (UI_Flush recordingState emptyGeometryBatch
          (UI_TextColored emptyTextBatch segs)).2.2.2 = 1 ∧
      countOp isBindIndexBuffer
        (UI_Flush recordingState emptyGeometryBatch
          (UI_TextColored emptyTextBatch segs)).2.2.2 = 1) ∧
    (∀ (segs : List AtlasDrawSeq) (b : TextBatch),
      b.atlases.length ≤ UI_TEXT_MAX_ATLASES →
      (UI_TextColored b segs).atlases.length ≤ UI_TEXT_MAX_ATLASES) ∧
    ((UI_TextColored emptyTextBatch nineAtlasSegs).atlases.length = 8 ∧
     distinctAtlases nineAtlasSegs = 9 ∧
     countOp isIndexedDraw
       (UI_Flush recordingState emptyGeometryBatch
         (UI_TextColored emptyTextBatch nineAtlasSegs)).2.2.2 = 8) := by
  refine ⟨fun segs hne hv hi hk =>
      ui_text_flush_within_capacity segs hne hv hi hk,
    fun segs b h => UI_TextColored_atlases_le segs b h,
    by decide, by decide, by decide⟩

/-- Witness for C8's amended theorem at the claim's own in-capacity example:
one text draw with 3 glyphs from atlas 1 (12 vertices, 18 indices) and 2
glyphs from atlas 2 (8 vertices, 12 indices) - two distinct atlases, two
atlas ranges, two indexed draws. -/
theorem C8_amended_witness :
    (([{ atlas_texture := 1, num_vertices := 12, num_indices := 18 },
       { atlas_texture := 2, num_vertices := 8, num_indices := 12 }] :
        List AtlasDrawSeq) ≠ [] ∧
     distinctAtlases
       [{ atlas_texture := 1, num_vertices := 12, num_indices := 18 },
        { atlas_texture := 2, num_vertices := 8, num_indices := 12 }] = 2) ∧
    (UI_TextColored emptyTextBatch
      [{ atlas_texture := 1, num_vertices := 12, num_indices := 18 },
       { atlas_texture := 2, num_vertices := 8, num_indices := 12 }]).atlases.length = 2 ∧
    countOp isIndexedDraw
      (UI_Flush recordingState emptyGeometryBatch
        (UI_TextColored emptyTextBatch
          [{ atlas_texture := 1, num_vertices := 12, num_indices := 18 },
           { atlas_texture := 2, num_vertices := 8, num_indices := 12 }])).2.2.2 = 2 := by
  have h := C8_amended.1
    [{ atlas_texture := 1, num_vertices := 12, num_indices := 18 },
     { atlas_texture := 2, num_vertices := 8, num_indices := 12 }]
    (by decide) (by decide) (by decide) (by decide)
  exact ⟨⟨by decide, by decide⟩, h.1.trans (by decide), h.2.1.trans (by decide)⟩
